import Mathlib

/-!
Verification of the statistical extraction pipeline of `src/app.py`
(AtmoSight Weather Insight Dashboard).

The embedding translates the module-level analysis script (lines 215-251 of
`app.py`) into Lean:

* machine floats are modelled as exact rationals `ℚ`; the IEEE `NaN` values
  that pandas produces for empty aggregations are modelled as `Option.none`
  (a comparison against `none` is `false`, as `NaN > x` is `False` in numpy);
* a Python exception is modelled as `Except.error` with the exception's
  message;
* `pd.to_datetime` is modelled for the upstream NASA POWER date keys
  (`"YYYYMMDD"` digit strings); an unparseable key yields `none`, which
  `build_dataframe` turns into an error, exactly as `pd.to_datetime` raises;
* `np.polyfit(x, y, 1)[0]` is modelled exactly: it raises on an empty `x`
  vector; for non-constant `x` it returns the unique ordinary-least-squares
  slope; for constant `x = a ≠ 0` (rank-deficient Vandermonde) `lstsq`
  returns the minimum-norm solution of the column-scaled system, whose slope
  coefficient evaluates to `mean(y) / (2a)` (derivation in the comment at
  `polyfitSlope`).
-/

namespace AtmoSight

/-- A calendar date, as produced by parsing one of the upstream date keys. -/
structure Date where
  year : Nat
  month : Nat
  day : Nat
  deriving DecidableEq, Repr

/-- Gregorian leap-year rule (pandas calendar). -/
def isLeapYear (y : Nat) : Bool :=
  (y % 4 == 0 && y % 100 != 0) || (y % 400 == 0)

/-- Number of days of month `m` (1-12) in year `y`. -/
def daysInMonth (y m : Nat) : Nat :=
  if m = 1 then 31
  else if m = 2 then (if isLeapYear y then 29 else 28)
  else if m = 3 then 31
  else if m = 4 then 30
  else if m = 5 then 31
  else if m = 6 then 30
  else if m = 7 then 31
  else if m = 8 then 31
  else if m = 9 then 30
  else if m = 10 then 31
  else if m = 11 then 30
  else if m = 12 then 31
  else 0

/-- Ordinal day of year of a date (`Series.dt.dayofyear` in `app.py` line 227):
days of the preceding months plus the day of month. -/
def dayOfYear (d : Date) : Nat :=
  (List.range (d.month - 1)).foldl (fun acc i => acc + daysInMonth d.year (i + 1)) 0 + d.day

/-- Decimal value of a digit list, most significant first. -/
def digitsToNat (cs : List Char) : Nat :=
  cs.foldl (fun acc c => 10 * acc + (c.toNat - 48)) 0

/-- `pd.to_datetime` on an upstream date key (line 217).  The NASA POWER API
emits `"YYYYMMDD"` digit strings; those parse to a calendar date after a
validity check, anything else fails (`pd.to_datetime` raises, modelled as
`none` here and turned into `Except.error` by `build_dataframe`). -/
def parseDate (s : String) : Option Date :=
  let cs := s.toList
  if cs.length == 8 && cs.all Char.isDigit then
    let y := digitsToNat (cs.take 4)
    let m := digitsToNat ((cs.drop 4).take 2)
    let d := digitsToNat (cs.drop 6)
    if 1 ≤ m ∧ m ≤ 12 ∧ 1 ≤ d ∧ d ≤ daysInMonth y m then some ⟨y, m, d⟩ else none
  else none

/-- One row of the dataframe built at line 218: a date and the variable's
value for that date (`none` models a missing value / NaN). -/
structure Obs where
  date : Date
  value : Option ℚ
  deriving DecidableEq, Repr

/-- Chronological comparison of dates: timestamp order of `pd.to_datetime`
values is lexicographic on (year, month, day). -/
def dateLe (a b : Date) : Bool :=
  decide (a.year < b.year ∨
    (a.year = b.year ∧ (a.month < b.month ∨ (a.month = b.month ∧ a.day ≤ b.day))))

/-- Row order used by `sort_values("date")`: compare the `date` column. -/
def obsLe (a b : Obs) : Prop := dateLe a.date b.date = true

instance : DecidableRel obsLe := fun a b => by
  unfold obsLe; infer_instance

instance : IsTotal Obs obsLe :=
  ⟨by intro a b; simp only [obsLe, dateLe, decide_eq_true_eq]; omega⟩

instance : IsTrans Obs obsLe :=
  ⟨by intro a b c h1 h2; simp only [obsLe, dateLe, decide_eq_true_eq] at h1 h2 ⊢; omega⟩

/-- The record-building comprehension of line 217:
`[{"date": pd.to_datetime(k), parameter: v} for k, v in data.items()]`.
Python evaluates the comprehension left to right and `pd.to_datetime` raises
on the first unparseable key, aborting the whole comprehension. -/
def parseRecords : List (String × Option ℚ) → Except String (List Obs)
  | [] => .ok []
  | (k, v) :: rest =>
    match parseDate k with
    | none => .error "to_datetime: unparseable date"
    | some d =>
      match parseRecords rest with
      | .error e => .error e
      | .ok rs => .ok (⟨d, v⟩ :: rs)

/-- `build_dataframe` (lines 215-218): build the records, then
`pd.DataFrame(records).sort_values("date")`.  When `records` is empty the
frame has no columns at all, so `sort_values("date")` raises
`KeyError: 'date'`; otherwise the rows are sorted ascending by date (ties
between duplicate dates are left unspecified by the source; insertion sort
fixes one order, the sortedness statements do not depend on it). -/
def build_dataframe (input : List (String × Option ℚ)) : Except String (List Obs) :=
  match parseRecords input with
  | .error e => .error e
  | .ok records =>
    if records.isEmpty then .error "KeyError: date"
    else .ok (List.insertionSort obsLe records)

/-- Day-of-year selection of lines 227-228:
`selected = df[df["doy"] == date_in.timetuple().tm_yday]`. -/
def selectDoy (s : List Obs) (target : Nat) : List Obs :=
  s.filter (fun o => dayOfYear o.date == target)

/-- `values = selected[var].dropna()` (line 230): the present values, in
order. -/
def presentValues (sel : List Obs) : List ℚ :=
  sel.filterMap (fun o => o.value)

/-- Arithmetic mean of a list of rationals (junk value 0 on the empty list;
the `Option`-valued `seriesMean` captures the NaN pandas returns there). -/
def listMean (l : List ℚ) : ℚ := l.sum / l.length

/-- The variance pandas computes inside `Series.std(ddof)`:
`Σ (v - mean)² / (N - ddof)`.  `values.std(ddof=0)` at line 232 is
`Real.sqrt (varDdof values 0)`.  (For `N ≤ ddof` pandas yields NaN; this
total function returns the junk value 0 there and is only used via
`seriesVar`, which returns `none` in that case.) -/
def varDdof (l : List ℚ) (ddof : Nat) : ℚ :=
  ((l.map (fun v => (v - listMean l) ^ 2)).sum) / ((l.length - ddof : Nat) : ℚ)

/-- `values.mean()` (line 231): NaN on an empty series. -/
def seriesMean (l : List ℚ) : Option ℚ :=
  if l.isEmpty then none else some (listMean l)

/-- The square of `values.std(ddof)` (line 232) with its NaN case: `none`
when `N ≤ ddof`.  The standard deviation itself is `Real.sqrt` of this. -/
def seriesVar (l : List ℚ) (ddof : Nat) : Option ℚ :=
  if l.length ≤ ddof then none else some (varDdof l ddof)

/-- Decidable embedding of the float comparison `v > m + 2 * sqrt v2`
(the elementwise comparison of line 236, with `v2` the variance, so that
`sqrt v2` is the standard deviation).  For `0 ≤ v2` this Boolean is `true`
exactly when the real inequality holds — proved in `exceedInd_iff` below. -/
def exceedInd (m v2 v : ℚ) : Bool :=
  decide (m < v ∧ 4 * v2 < (v - m) ^ 2)

/-- `.mean()` of a Boolean series (line 236): `True` counts as 1, and the
mean of an empty series is NaN. -/
def boolMean (bs : List Bool) : Option ℚ :=
  if bs.isEmpty then none
  else some ((bs.map (fun b => if b then (1 : ℚ) else 0)).sum / bs.length)

/-- `prob_extreme = (values > mean_val + 2 * std_val).mean()` (line 236). -/
def prob_extreme (l : List ℚ) : Option ℚ :=
  boolMean (l.map (exceedInd (listMean l) (varDdof l 0)))

/-- `np.polyfit(x, y, 1)[0]` (line 237).
`polyfit` raises `TypeError: expected non-empty vector for x` on an empty
`x`.  Otherwise it solves the least-squares problem for the column-scaled
Vandermonde matrix with `lstsq`, which returns the minimum-norm
least-squares solution:

* if the `x` are not all equal the matrix has full rank and the solution is
  the unique ordinary-least-squares line, of slope
  `(n Σxy − Σx Σy) / (n Σx² − (Σx)²)`;
* if all `x` equal some `a ≠ 0` the scaled rows are all
  `[sign a / √n, 1 / √n]`; the minimum-norm solution of the scaled system
  is `c' = (sign a · √n ȳ / 2, √n ȳ / 2)` and unscaling by the column norms
  `(√n · |a|, √n)` gives the slope `ȳ / (2a)`;
* if all `x` are 0 the first column norm is 0 and the scaled matrix is not
  a number (unreachable for year data; kept as an error). -/
def polyfitSlope (pts : List (ℚ × ℚ)) : Except String ℚ :=
  if pts.isEmpty then .error "expected non-empty vector for x"
  else
    let n : ℚ := pts.length
    let sx := (pts.map Prod.fst).sum
    let sy := (pts.map Prod.snd).sum
    let sxx := (pts.map (fun p => p.1 ^ 2)).sum
    let sxy := (pts.map (fun p => p.1 * p.2)).sum
    let den := n * sxx - sx ^ 2
    if den ≠ 0 then .ok ((n * sxy - sx * sy) / den)
    else if sx ≠ 0 then .ok ((sy / n) / (2 * (sx / n)))
    else .error "zero column norm in scaled Vandermonde"

/-- The `(year, value)` pairs fed to `np.polyfit` at line 237:
`selected["date"].dt.year` against `selected[var]` — the *un-dropped* column,
so a missing value makes the whole vector unusable (`none`). -/
def obsPoints : List Obs → Option (List (ℚ × ℚ))
  | [] => some []
  | o :: rest =>
    match o.value with
    | none => none
    | some v => (obsPoints rest).map (fun ps => ((o.date.year : ℚ), v) :: ps)

/-- The slope computation of line 237 on a selected sample.  When a value is
missing, `np.polyfit` hands NaN to LAPACK's `dgelsd`; what happens then
(NaN coefficients or a `LinAlgError`) is floating-point library behaviour
not derivable from this repository's source, so that branch is an opaque
error value no theorem below relies on. -/
def slopeOfSample (sel : List Obs) : Except String ℚ :=
  match obsPoints sel with
  | some pts => polyfitSlope pts
  | none => .error "NaN in least-squares input (implementation-defined)"

/-- Line 238: `"increasing" if slope > 0 else "decreasing" if slope < 0
else "stable"`. -/
def trendText (slope : ℚ) : String :=
  if slope > 0 then "increasing" else if slope < 0 then "decreasing" else "stable"

/-- Line 251: `'more volatile' if prob_extreme > 0.15 else 'generally
stable'`.  A NaN `prob_extreme` (`none`) compares `False`. -/
def volatilityLabel (p : Option ℚ) : String :=
  if (match p with
      | some q => decide ((0.15 : ℚ) < q)
      | none => false) then "more volatile"
  else "generally stable"

/-- `values` for a series and target day (lines 228+230). -/
def valuesOf (s : List Obs) (target : Nat) : List ℚ :=
  presentValues (selectDoy s target)

/-- `mean_val` (line 231). -/
def meanOf (s : List Obs) (target : Nat) : Option ℚ :=
  seriesMean (valuesOf s target)

/-- The square of `std_val` (line 232), `none` iff `std_val` is NaN. -/
def varOf (s : List Obs) (target : Nat) : Option ℚ :=
  seriesVar (valuesOf s target) 0

/-- `max_val` (line 233): `Series.max()` skips missing values and is NaN on
an empty series. -/
def maxOf (s : List Obs) (target : Nat) : Option ℚ :=
  (valuesOf s target).max?

/-- `min_val` (line 234). -/
def minOf (s : List Obs) (target : Nat) : Option ℚ :=
  (valuesOf s target).min?

/-- `prob_extreme` (line 236). -/
def probOf (s : List Obs) (target : Nat) : Option ℚ :=
  prob_extreme (valuesOf s target)

/-- `slope` (line 237). -/
def slopeOf (s : List Obs) (target : Nat) : Except String ℚ :=
  slopeOfSample (selectDoy s target)

/-- The values the script renders for one analysis run. -/
structure AnalysisResult where
  mean_val : Option ℚ
  var_val : Option ℚ
  max_val : Option ℚ
  min_val : Option ℚ
  prob_ex : Option ℚ
  slope : ℚ
  trend_text : String
  volatility : String
  deriving DecidableEq, Repr

/-- The straight-line analysis of lines 227-251 as one operation: the
statistics are computed first (they never raise), then the slope — whose
exception, if any, aborts the run before anything is rendered. -/
def analyze (s : List Obs) (target : Nat) : Except String AnalysisResult :=
  match slopeOf s target with
  | .error e => .error e
  | .ok sl =>
    .ok ⟨meanOf s target, varOf s target, maxOf s target, minOf s target,
         probOf s target, sl, trendText sl, volatilityLabel (probOf s target)⟩

/-- Population variance in the spec's words: squared deviations from the
arithmetic mean, divided by `N` (not `N − 1`). -/
def specPopulationVariance (l : List ℚ) : ℚ :=
  ((l.map (fun v => (v - l.sum / l.length) ^ 2)).sum) / l.length


/-! ### Helper lemmas -/

lemma varDdof_nonneg (l : List ℚ) : 0 ≤ varDdof l 0 := by
  unfold varDdof
  apply div_nonneg
  · apply List.sum_nonneg
    intro a ha
    simp only [List.mem_map] at ha
    obtain ⟨w, _, rfl⟩ := ha
    exact sq_nonneg _
  · positivity

lemma exceedInd_iff (m v2 v : ℚ) (h : 0 ≤ v2) :
    exceedInd m v2 v = true ↔ ((m : ℝ) + 2 * Real.sqrt (v2 : ℝ) < (v : ℝ)) := by
  simp only [exceedInd, decide_eq_true_eq]
  have h4 : Real.sqrt ((4 : ℝ) * (v2 : ℝ)) = 2 * Real.sqrt (v2 : ℝ) := by
    rw [show ((4 : ℝ) * (v2 : ℝ)) = (2 : ℝ) ^ 2 * (v2 : ℝ) by norm_num,
      Real.sqrt_mul (by positivity), Real.sqrt_sq (by norm_num)]
  constructor
  · rintro ⟨h1, h2⟩
    have hvm : (0 : ℝ) < (v : ℝ) - (m : ℝ) := by
      have : (m : ℝ) < (v : ℝ) := by exact_mod_cast h1
      linarith
    have h2r : (4 : ℝ) * (v2 : ℝ) < ((v : ℝ) - (m : ℝ)) ^ 2 := by exact_mod_cast h2
    have hlt := (Real.sqrt_lt' hvm).mpr h2r
    rw [h4] at hlt
    linarith
  · intro hlt
    have hs := Real.sqrt_nonneg ((v2 : ℚ) : ℝ)
    have h1 : (m : ℝ) < (v : ℝ) := by linarith
    have hsq : (2 * Real.sqrt ((v2 : ℚ) : ℝ)) ^ 2 = 4 * ((v2 : ℚ) : ℝ) := by
      rw [mul_pow, Real.sq_sqrt (by exact_mod_cast h)]
      norm_num
    have h2 : (4 : ℝ) * (v2 : ℝ) < ((v : ℝ) - (m : ℝ)) ^ 2 := by nlinarith
    exact ⟨by exact_mod_cast h1, by exact_mod_cast h2⟩

lemma sum_sq_eq_zero {m : ℚ} {l : List ℚ}
    (h : (l.map (fun v => (v - m) ^ 2)).sum = 0) : ∀ v ∈ l, v = m := by
  induction l with
  | nil => intro v hv; simp at hv
  | cons x xs ih =>
    simp only [List.map_cons, List.sum_cons] at h
    have h2 : 0 ≤ (xs.map (fun v => (v - m) ^ 2)).sum := by
      apply List.sum_nonneg
      intro a ha
      simp only [List.mem_map] at ha
      obtain ⟨w, _, rfl⟩ := ha
      exact sq_nonneg _
    have h1 : 0 ≤ (x - m) ^ 2 := sq_nonneg _
    intro v hv
    rcases List.mem_cons.mp hv with rfl | hv'
    · have hx : (v - m) ^ 2 = 0 := by linarith
      have := sq_eq_zero_iff.mp hx
      linarith [sub_eq_zero.mp this]
    · exact ih (by linarith) v hv'

lemma sum_indicator_eq_countP (p : ℚ → Bool) (l : List ℚ) :
    ((l.map p).map (fun b => if b then (1 : ℚ) else 0)).sum = l.countP p := by
  induction l with
  | nil => simp
  | cons x xs ih =>
    simp only [List.map_cons, List.sum_cons, List.countP_cons, ih]
    by_cases hp : p x
    · simp [hp]
      ring
    · simp [hp]

lemma parseRecords_fails {input : List (String × Option ℚ)}
    (h : ∃ p ∈ input, parseDate p.1 = none) :
    parseRecords input = .error "to_datetime: unparseable date" := by
  induction input with
  | nil => simp at h
  | cons kv rest ih =>
    obtain ⟨k, v⟩ := kv
    simp only [parseRecords]
    cases hk : parseDate k with
    | none => rfl
    | some d =>
      obtain ⟨p, hp, hnone⟩ := h
      rcases List.mem_cons.mp hp with rfl | hmem
      · rw [hk] at hnone; cases hnone
      · rw [ih ⟨p, hmem, hnone⟩]

lemma polyfitSlope_single (x y : ℚ) (hx : x ≠ 0) :
    polyfitSlope [(x, y)] = .ok (y / (2 * x)) := by
  simp only [polyfitSlope, List.isEmpty_cons, List.map_cons, List.map_nil, List.sum_cons,
    List.sum_nil, List.length_cons, List.length_nil, add_zero, Nat.cast_one, Bool.false_eq_true,
    if_false]
  split_ifs with h1
  · exfalso; apply h1; push_cast; ring
  · norm_num

/-! ### Claim theorems (scratch drafts) -/

lemma length_cast_ne_zero {l : List ℚ} (h : l ≠ []) : ((l.length : ℚ)) ≠ 0 := by
  have h0 : l.length ≠ 0 := fun hc => h (List.length_eq_zero.mp hc)
  exact_mod_cast Nat.cast_ne_zero.mpr h0

lemma prob_extreme_eq_countP (l : List ℚ) (h : l ≠ []) :
    prob_extreme l = some ((l.countP (exceedInd (listMean l) (varDdof l 0)) : ℚ) / l.length) := by
  unfold prob_extreme boolMean
  have hne : (l.map (exceedInd (listMean l) (varDdof l 0))).isEmpty = false := by
    cases l with
    | nil => exact absurd rfl h
    | cons a as => rfl
  rw [hne]
  simp only [Bool.false_eq_true, if_false, List.length_map]
  rw [sum_indicator_eq_countP]

lemma varDdof_zero_all_mean {l : List ℚ} (h : l ≠ []) (h0 : varDdof l 0 = 0) :
    ∀ v ∈ l, v = listMean l := by
  apply sum_sq_eq_zero
  rw [varDdof, Nat.sub_zero] at h0
  rcases div_eq_zero_iff.mp h0 with hs | hd
  · exact hs
  · exact absurd hd (length_cast_ne_zero h)

/-! ### Claim theorems -/

/-- Claim C1 counterexample: a one-record series queried at a day-of-year with no match makes the analysis raise (np.polyfit rejects the empty year vector), so the claim that it never raises and returns no-data results is false. -/
theorem c1_counterexample :
    analyze [⟨⟨1991, 1, 1⟩, some 5⟩] 2 = .error "expected non-empty vector for x" := by rfl

/-- Claim C1 (amended): when no record of the series has the target day-of-year, every statistic (mean, std, max, min, exceedance frequency) evaluates to missing/NaN, but the trend fit raises np.polyfit's empty-vector TypeError and the analysis as a whole raises instead of returning no-data / insufficient-data results. -/
theorem c1_amended (s : List Obs) (target : Nat) (h : selectDoy s target = []) :
    meanOf s target = none ∧ varOf s target = none ∧ maxOf s target = none ∧
    minOf s target = none ∧ probOf s target = none ∧
    slopeOf s target = .error "expected non-empty vector for x" ∧
    analyze s target = .error "expected non-empty vector for x" := by
  have hv : valuesOf s target = [] := by simp [valuesOf, h, presentValues]
  have hslope : slopeOf s target = .error "expected non-empty vector for x" := by
    simp [slopeOf, h, slopeOfSample, obsPoints, polyfitSlope]
  refine ⟨?_, ?_, ?_, ?_, ?_, hslope, ?_⟩
  · simp [meanOf, hv, seriesMean]
  · simp [varOf, hv, seriesVar]
  · simp [maxOf, hv]
  · simp [minOf, hv]
  · simp [probOf, hv, prob_extreme, boolMean]
  · simp [analyze, hslope]

/-- Witness for the amended claim C1 at a concrete series and day. -/
theorem c1_amended_witness :
    selectDoy [⟨⟨1992, 3, 5⟩, some 7⟩] 1 = [] ∧
    analyze [⟨⟨1992, 3, 5⟩, some 7⟩] 1 = .error "expected non-empty vector for x" :=
  ⟨by decide, (c1_amended [⟨⟨1992, 3, 5⟩, some 7⟩] 1 (by decide)).2.2.2.2.2.2⟩

/-- Claim C2 counterexample: a DaySample with a single present value (one distinct year) does not produce an insufficient-data report — the code attempts and completes the least-squares fit, returning the minimum-norm slope 1/400 and the direction 'increasing'. -/
theorem c2_counterexample :
    slopeOfSample [⟨⟨2000, 3, 1⟩, some 10⟩] = .ok (1 / 400) ∧
    (slopeOfSample [⟨⟨2000, 3, 1⟩, some 10⟩]).map trendText = .ok "increasing" := by
  constructor
  · simp only [slopeOfSample, obsPoints, polyfitSlope]
    norm_num
  · simp only [slopeOfSample, obsPoints, polyfitSlope]
    norm_num [Except.map, trendText]

/-- Claim C2 (amended): the trend estimator has no insufficient-data branch. With one record (year x, value y, x nonzero) it attempts the fit anyway and returns the minimum-norm least-squares slope y/(2x); with zero records np.polyfit raises. -/
theorem c2_amended (x y : ℚ) (hx : x ≠ 0) :
    polyfitSlope [(x, y)] = .ok (y / (2 * x)) ∧
    polyfitSlope [] = .error "expected non-empty vector for x" :=
  ⟨polyfitSlope_single x y hx, rfl⟩

/-- Witness for the amended claim C2 at year 2000, value 10. -/
theorem c2_amended_witness :
    (2000 : ℚ) ≠ 0 ∧ polyfitSlope [((2000 : ℚ), (10 : ℚ))] = .ok (10 / (2 * 2000)) :=
  ⟨by norm_num, (c2_amended 2000 10 (by norm_num)).1⟩

/-- Claim C3 counterexample: one unparseable date key makes the whole normalization fail with the parse exception; the other record is not returned, so records are not dropped individually. -/
theorem c3_counterexample :
    build_dataframe [("notadate", some 1), ("19910101", some 2)] =
      .error "to_datetime: unparseable date" := by rfl

/-- Claim C3 (amended): an input mapping containing any date that fails to parse makes build_dataframe raise the pd.to_datetime exception for the whole operation; no partial Series is produced. -/
theorem c3_amended (input : List (String × Option ℚ))
    (h : ∃ p ∈ input, parseDate p.1 = none) :
    build_dataframe input = .error "to_datetime: unparseable date" := by
  unfold build_dataframe
  rw [parseRecords_fails h]

/-- Witness for the amended claim C3 at a concrete one-record mapping with an unparseable key. -/
theorem c3_amended_witness :
    (∃ p ∈ [("xx!!2026", some (1 : ℚ))], parseDate p.1 = none) ∧
    build_dataframe [("xx!!2026", some (1 : ℚ))] = .error "to_datetime: unparseable date" :=
  ⟨by decide, c3_amended _ (by decide)⟩

/-- Claim C4 counterexample: on the empty input mapping build_dataframe raises KeyError 'date' instead of returning an empty Series. -/
theorem c4_counterexample :
    build_dataframe ([] : List (String × Option ℚ)) = .error "KeyError: date" := rfl

/-- Claim C4 (amended): on the empty input the record-building step itself succeeds with an empty record list, but sort_values('date') on the resulting column-less DataFrame raises KeyError 'date'; the Normalizer does not return an empty Series. -/
theorem c4_amended :
    parseRecords ([] : List (String × Option ℚ)) = .ok [] ∧
    build_dataframe ([] : List (String × Option ℚ)) = .error "KeyError: date" :=
  ⟨rfl, rfl⟩

/-- Claim C5: for a DaySample with at least one present value, the exceedance frequency is the number of present values strictly greater than mean + 2*std over the number of present values; the embedded comparison agrees with the real-number strict inequality (so a value exactly at mean + 2*std is not counted), and when std is 0 the frequency is 0. -/
theorem c5_exceedance (sample : List Obs) (h : presentValues sample ≠ []) :
    prob_extreme (presentValues sample) =
      some (((presentValues sample).countP
          (exceedInd (listMean (presentValues sample)) (varDdof (presentValues sample) 0)) : ℚ) /
        (presentValues sample).length) ∧
    (∀ v ∈ presentValues sample,
      (exceedInd (listMean (presentValues sample)) (varDdof (presentValues sample) 0) v = true ↔
        ((listMean (presentValues sample) : ℝ) +
            2 * Real.sqrt ((varDdof (presentValues sample) 0 : ℚ) : ℝ) < (v : ℝ)))) ∧
    (∀ v ∈ presentValues sample,
      ((v : ℝ) = (listMean (presentValues sample) : ℝ) +
          2 * Real.sqrt ((varDdof (presentValues sample) 0 : ℚ) : ℝ)) →
        exceedInd (listMean (presentValues sample)) (varDdof (presentValues sample) 0) v = false) ∧
    (Real.sqrt ((varDdof (presentValues sample) 0 : ℚ) : ℝ) = 0 →
      prob_extreme (presentValues sample) = some 0) := by
  have hv2 : 0 ≤ varDdof (presentValues sample) 0 := varDdof_nonneg _
  refine ⟨prob_extreme_eq_countP _ h, ?_, ?_, ?_⟩
  · intro v hv
    exact exceedInd_iff _ _ v hv2
  · intro v hv heq
    cases hind : exceedInd (listMean (presentValues sample)) (varDdof (presentValues sample) 0) v
    · rfl
    · exfalso
      have hlt := (exceedInd_iff _ _ v hv2).mp hind
      rw [← heq] at hlt
      exact lt_irrefl _ hlt
  · intro hsq0
    have hv20 : varDdof (presentValues sample) 0 = 0 := by
      have h1 : ((varDdof (presentValues sample) 0 : ℚ) : ℝ) ≤ 0 := Real.sqrt_eq_zero'.mp hsq0
      have h2 : varDdof (presentValues sample) 0 ≤ 0 := by exact_mod_cast h1
      linarith
    have hall := varDdof_zero_all_mean h hv20
    have hcnt0 : (presentValues sample).countP
        (exceedInd (listMean (presentValues sample)) (varDdof (presentValues sample) 0)) = 0 := by
      rw [List.countP_eq_zero]
      intro a ha
      have ham := hall a ha
      simp [exceedInd, ham]
    rw [prob_extreme_eq_countP _ h, hcnt0]
    simp

/-- Witness for claim C5 at the sample [1, 1, 5]. -/
theorem c5_exceedance_witness :
    presentValues [⟨⟨2000, 1, 1⟩, some 1⟩, ⟨⟨2001, 1, 1⟩, some 1⟩, ⟨⟨2002, 1, 1⟩, some 5⟩] ≠ [] ∧
    prob_extreme (presentValues [⟨⟨2000, 1, 1⟩, some 1⟩, ⟨⟨2001, 1, 1⟩, some 1⟩, ⟨⟨2002, 1, 1⟩, some 5⟩]) =
      some (((presentValues [⟨⟨2000, 1, 1⟩, some 1⟩, ⟨⟨2001, 1, 1⟩, some 1⟩, ⟨⟨2002, 1, 1⟩, some 5⟩]).countP
          (exceedInd (listMean (presentValues [⟨⟨2000, 1, 1⟩, some 1⟩, ⟨⟨2001, 1, 1⟩, some 1⟩, ⟨⟨2002, 1, 1⟩, some 5⟩]))
            (varDdof (presentValues [⟨⟨2000, 1, 1⟩, some 1⟩, ⟨⟨2001, 1, 1⟩, some 1⟩, ⟨⟨2002, 1, 1⟩, some 5⟩]) 0)) : ℚ) /
        (presentValues [⟨⟨2000, 1, 1⟩, some 1⟩, ⟨⟨2001, 1, 1⟩, some 1⟩, ⟨⟨2002, 1, 1⟩, some 5⟩]).length) :=
  ⟨by decide, (c5_exceedance _ (by decide)).1⟩

/-- Claim C6: std_val = values.std(ddof=0) is the population standard deviation — the square root of the squared deviations divided by N (spec formulation), equivalently N * variance equals the raw sum of squared deviations. -/
theorem c6_population_std (sample : List Obs) (h : presentValues sample ≠ []) :
    Real.sqrt ((varDdof (presentValues sample) 0 : ℚ) : ℝ) =
      Real.sqrt ((specPopulationVariance (presentValues sample) : ℚ) : ℝ) ∧
    ((presentValues sample).length : ℚ) * varDdof (presentValues sample) 0 =
      ((presentValues sample).map
        (fun v => (v - listMean (presentValues sample)) ^ 2)).sum := by
  have hlen := length_cast_ne_zero h
  constructor
  · have hv : varDdof (presentValues sample) 0 = specPopulationVariance (presentValues sample) := by
      simp [varDdof, specPopulationVariance, listMean]
    rw [hv]
  · rw [varDdof, Nat.sub_zero]
    field_simp

/-- Witness for claim C6 at the sample [1, 3]. -/
theorem c6_population_std_witness :
    presentValues [⟨⟨2000, 1, 1⟩, some 1⟩, ⟨⟨2001, 1, 1⟩, some 3⟩] ≠ [] ∧
    ((presentValues [⟨⟨2000, 1, 1⟩, some 1⟩, ⟨⟨2001, 1, 1⟩, some 3⟩]).length : ℚ) *
        varDdof (presentValues [⟨⟨2000, 1, 1⟩, some 1⟩, ⟨⟨2001, 1, 1⟩, some 3⟩]) 0 =
      ((presentValues [⟨⟨2000, 1, 1⟩, some 1⟩, ⟨⟨2001, 1, 1⟩, some 3⟩]).map
        (fun v => (v - listMean (presentValues [⟨⟨2000, 1, 1⟩, some 1⟩, ⟨⟨2001, 1, 1⟩, some 3⟩])) ^ 2)).sum :=
  ⟨by decide, (c6_population_std _ (by decide)).2⟩

/-- Claim C7: whenever build_dataframe returns a Series, that Series is sorted non-decreasing by date, regardless of the order of the input mapping. -/
theorem c7_sorted (input : List (String × Option ℚ)) (s : List Obs)
    (h : build_dataframe input = .ok s) : List.Sorted obsLe s := by
  unfold build_dataframe at h
  cases hp : parseRecords input with
  | error e => rw [hp] at h; cases h
  | ok records =>
    rw [hp] at h
    dsimp only at h
    by_cases he : records.isEmpty
    · rw [if_pos he] at h; cases h
    · rw [if_neg he] at h
      injection h with h'
      rw [← h']
      exact List.sorted_insertionSort obsLe records

/-- Witness for claim C7: an out-of-order two-record input comes back sorted. -/
theorem c7_sorted_witness :
    List.Sorted obsLe [⟨⟨1991, 1, 1⟩, some 2⟩, ⟨⟨1992, 1, 1⟩, some 1⟩] :=
  c7_sorted [("19920101", some 1), ("19910101", some 2)]
    [⟨⟨1991, 1, 1⟩, some 2⟩, ⟨⟨1992, 1, 1⟩, some 1⟩] (by rfl)

/-- Claim C8: the trend classifier returns 'increasing' exactly for positive slope, 'decreasing' exactly for negative slope and 'stable' exactly for slope zero; values [10,12,14,16] over years 2000-2003 fit slope 2 ('increasing') and constant values [10,10,10,10] fit slope 0 ('stable'). -/
theorem c8_trend_sign :
    (∀ sl : ℚ,
      (trendText sl = "increasing" ↔ 0 < sl) ∧
      (trendText sl = "decreasing" ↔ sl < 0) ∧
      (trendText sl = "stable" ↔ sl = 0)) ∧
    polyfitSlope [((2000 : ℚ), (10 : ℚ)), (2001, 12), (2002, 14), (2003, 16)] = .ok 2 ∧
    trendText 2 = "increasing" ∧
    polyfitSlope [((2000 : ℚ), (10 : ℚ)), (2001, 10), (2002, 10), (2003, 10)] = .ok 0 ∧
    trendText 0 = "stable" := by
  refine ⟨?_, by simp only [polyfitSlope]; norm_num, by norm_num [trendText],
    by simp only [polyfitSlope]; norm_num, by norm_num [trendText]⟩
  intro sl
  unfold trendText
  rcases lt_trichotomy sl 0 with h | h | h
  · rw [if_neg (by linarith), if_pos h]
    exact ⟨⟨fun hc => absurd hc (by decide), fun hc => absurd h (by linarith)⟩,
      ⟨fun _ => h, fun _ => rfl⟩,
      ⟨fun hc => absurd hc (by decide), fun hc => absurd h (by simp [hc])⟩⟩
  · rw [if_neg (by simp [h]), if_neg (by simp [h])]
    exact ⟨⟨fun hc => absurd hc (by decide), fun hc => absurd hc (by simp [h])⟩,
      ⟨fun hc => absurd hc (by decide), fun hc => absurd hc (by simp [h])⟩,
      ⟨fun _ => h, fun _ => rfl⟩⟩
  · rw [if_pos h]
    exact ⟨⟨fun _ => h, fun _ => rfl⟩,
      ⟨fun hc => absurd hc (by decide), fun hc => absurd h (by linarith)⟩,
      ⟨fun hc => absurd hc (by decide), fun hc => absurd h (by simp [hc])⟩⟩

/-- Claim C9: the volatility label is 'more volatile' exactly when the exceedance frequency is strictly greater than 0.15; a frequency exactly 0.15 is labelled 'generally stable'. -/
theorem c9_volatility :
    (∀ q : ℚ, volatilityLabel (some q) = "more volatile" ↔ (0.15 : ℚ) < q) ∧
    volatilityLabel (some (0.15 : ℚ)) = "generally stable" := by
  constructor
  · intro q
    unfold volatilityLabel
    by_cases hq : (0.15 : ℚ) < q
    · simp [hq]
    · simp [hq]
  · unfold volatilityLabel
    norm_num

end AtmoSight
